import Mathlib

/-!
Verification of `src/experiments/playconf/environment.py`.

The module is embedded shallowly: numpy arrays become index functions
`Nat -> ... -> alpha` over an arbitrary linear ordered field `alpha`
(so concrete witnesses can be evaluated over the rationals), numpy
error paths become `Option`, and the external collaborators (the
`ThreeCircles` physics scene, its `step` method, `get_circle_state`,
the predictive model, and the constants `TARGET_FPS` and
`MAX_VELOCITY`) are modelled from the spec as parameters or as
spec-modelled definitions, because they live outside `src/`.
-/

namespace Playconf

variable {α : Type} [LinearOrderedField α]

/-- Embeds `np.clip(x, lo, hi)` for scalars: `min (max x lo) hi`. -/
def clip (x lo hi : α) : α := min (max x lo) hi

/-- Embeds `configuration_to_position(x, y, width, height, radius)`
(environment.py lines 13-21): clip the inputs to [0,1], scale by the scene
dimensions, then clamp each coordinate to `[radius, dimension - radius]`. -/
def configuration_to_position (x y width height radius : α) : α × α :=
  (min (max (clip x 0 1 * width) radius) (width - radius),
   min (max (clip y 0 1 * height) radius) (height - radius))

/-- Embeds `configuration_to_velocity(vx, vy)` (lines 24-29). The constant
`MAX_VELOCITY`, which the source imports from `renderer.threecircles`
(outside `src/`), is passed as the parameter `M`. -/
def configuration_to_velocity (M vx vy : α) : α × α :=
  ((clip vx 0 1 * 2 - 1) * M, (clip vy 0 1 * 2 - 1) * M)

/-- A body of the external physics scene: the source only ever touches its
mutable `position` and `velocity` attributes. -/
structure Circle (α : Type) where
  position : α × α
  velocity : α × α
deriving DecidableEq

/-- The external scene type: the source touches `.circles`, `.width`,
`.height`, `.radius` and `.step()` (the latter is passed around as a
function parameter `step`). -/
structure Scene (α : Type) where
  width : α
  height : α
  radius : α
  circles : List (Circle α)
deriving DecidableEq

/-- Modelled from the spec: the external `ThreeCircles` scene constructor
(`renderer.threecircles`, not under `src/`) builds a scene of the given
dimensions holding three circles. Initial circle placement is left at the
origin; it is irrelevant to every claim because
`initialize_scene_from_configuration` overwrites every circle before any
circle state is read. -/
def ThreeCircles (width height radius : α) : Scene α :=
  ⟨width, height, radius,
   [⟨(0, 0), (0, 0)⟩, ⟨(0, 0), (0, 0)⟩, ⟨(0, 0), (0, 0)⟩]⟩

/-- Modelled from the spec: `get_circle_state(scene, circle)` (imported by the
source from `experiments.npe.simulate`, not under `src/`) returns the
circle's 2D position, which the driver records into `actual_states`. -/
def get_circle_state (scene : Scene α) (c : Circle α) : α × α := c.position

/-- Embeds the slice-and-unpack `x, y, vx, vy = configuration[c_i : c_i + 4]`
(line 34): a Python slice starting at `i` yields four elements (so the unpack
succeeds) exactly when `i + 4 ≤ len(configuration)`. -/
def readSlice4 (cfg : List α) (i : ℕ) : Option (α × α × α × α) :=
  if i + 4 ≤ cfg.length then
    some (cfg.getD i 0, cfg.getD (i + 1) 0, cfg.getD (i + 2) 0, cfg.getD (i + 3) 0)
  else none

/-- One iteration of the assignment loop of
`initialize_scene_from_configuration` (lines 33-39): body `i` gets position
and velocity mapped from `configuration[i : i + 4]`. Note the source reads
the slice at offset `i` (`c_i : c_i + 4`), not at offset `4 * i`. -/
def assignCircle (M width height radius : α) (cfg : List α) (i : ℕ) :
    Option (Circle α) :=
  match readSlice4 cfg i with
  | some (x, y, vx, vy) =>
      some ⟨configuration_to_position x y width height radius,
            configuration_to_velocity M vx vy⟩
  | none => none

/-- Sequential `Option`-valued map, mirroring a Python loop that raises on the
first failing iteration: the whole computation fails if any element fails. -/
def seqMapOption {β γ : Type} (f : β → Option γ) : List β → Option (List γ)
  | [] => some []
  | b :: l =>
    match f b, seqMapOption f l with
    | some c, some l2 => some (c :: l2)
    | _, _ => none

/-- The whole assignment loop of `initialize_scene_from_configuration`
(lines 33-39): every body of the scene is reassigned from the configuration;
the scene dimensions are untouched. -/
def assignScene (M : α) (scene : Scene α) (cfg : List α) : Option (Scene α) :=
  (seqMapOption (assignCircle M scene.width scene.height scene.radius cfg)
      (List.range scene.circles.length)).map
    (fun cs => ⟨scene.width, scene.height, scene.radius, cs⟩)

/-- Embeds `initialize_scene_from_configuration(scene, configuration)`
(lines 32-43): assign every body from the configuration vector, then advance
the scene by exactly one buffered correction step (`scene.step()`); the
physics step itself is external and passed as the parameter `step`. -/
def init_scene_from_configuration (M : α) (step : Scene α → Scene α)
    (scene : Scene α) (cfg : List α) : Option (Scene α) :=
  (assignScene M scene cfg).map step

/-- The body of `make_training`'s focus loop (lines 51-66) at a given focus
index. A 2-dimensional numpy array of row count `S` (the scene axis) is
represented as a pair of its column count and its entry function. The feature
list is `[focus-state] ++ context-states ++ ones-masks` with
`context_indices = [i for i in range(N) if i != focus]`, and the target is
`(actual_states[:, focus, 2] - actual_states[:, focus, 1]) * TARGET_FPS`
(`TARGET_FPS` is the parameter `fps`; the source imports it from
`renderer.constants`, outside `src/`). -/
def training_example (fps : α) (N D : ℕ) (a : ℕ → ℕ → ℕ → ℕ → α)
    (focus : ℕ) :
    List (ℕ × (ℕ → ℕ → α)) × (ℕ × (ℕ → ℕ → α)) :=
  let current_state : ℕ → ℕ → ℕ → α := fun s n j => a s n (j / D) (j % D)
  let context_indices := (List.range N).filter (fun i => i ≠ focus)
  ((4, fun s j => current_state s focus j) ::
      (context_indices.map (fun c => (4, fun s j => current_state s c j)) ++
       context_indices.map (fun _ => (1, fun _ _ => (1 : α)))),
   (D, fun s j => (a s focus 2 j - a s focus 1 j) * fps))

/-- Embeds `make_training(actual_states)` (lines 46-66) over an input tensor
of numpy shape `(S, N, E, D)` given by the index function `a` (the scene axis
`S` stays implicit in the function representation). `none` models the numpy
error paths: the reshape of `actual_states[:, :, :2, :]` to `(S, N, 4)`
requires `min E 2 * D = 4`; an empty body axis makes the loop body never run
(Python then returns `None`); and the target read `actual_states[:, focus, 2]`
requires `2 < E`. The source returns inside the first loop iteration, so only
focus index 0 is ever produced. -/
def make_training (fps : α) (N E D : ℕ) (a : ℕ → ℕ → ℕ → ℕ → α) :
    Option (List (ℕ × (ℕ → ℕ → α)) × (ℕ × (ℕ → ℕ → α))) :=
  if min E 2 * D = 4 then
    if 0 < N then
      if 2 < E then some (training_example fps N D a 0) else none
    else none
  else none

/-- A 4-dimensional numpy array: its shape together with a total entry
function (entries outside the shape are irrelevant junk kept at whatever the
function yields). -/
structure Tensor4 (α : Type) where
  shape : ℕ × ℕ × ℕ × ℕ
  val : ℕ → ℕ → ℕ → ℕ → α

/-- Embeds `np.zeros((S, C, E, 2))` (lines 121-127). -/
def zerosTensor (S C E : ℕ) : Tensor4 α := ⟨(S, C, E, 2), fun _ _ _ _ => 0⟩

/-- Embeds the numpy assignment `t[:, f, e] = v` used at line 165: every
scene row and both coordinates of slot `(f, e)` are overwritten, everything
else is kept. -/
def writeSlot (t : Tensor4 α) (f e : ℕ) (v : ℕ → ℕ → α) : Tensor4 α :=
  ⟨t.shape, fun s c ep k => if c = f ∧ ep = e then v s k else t.val s c ep k⟩

/-- The Python index expression `episode - 1` as numpy interprets it on an
axis of length `n`: index `-1` (arising when `episode = 0`) wraps to the last
entry `n - 1`. -/
def pyPrev (e n : ℕ) : ℕ := if e = 0 then n - 1 else e - 1

/-- The reshaped history window `current_state` of the prediction loop
(lines 141-143): the slice `actual[:, :, e - P : e, :]` of `P` episodes and 2
coordinates flattened row-major into `P * 2` features. -/
def current_window (P : ℕ) (actual : ℕ → ℕ → ℕ → ℕ → α) (e : ℕ) :
    ℕ → ℕ → ℕ → α :=
  fun s n j => actual s n (e - P + j / 2) (j % 2)

/-- The feature list passed to `self.model.predict` at `(episode, focus)`
(lines 150-163): `[focus-window] ++ context-windows ++ ones-masks`. -/
def features (P C : ℕ) (actual : ℕ → ℕ → ℕ → ℕ → α) (e f : ℕ) :
    List (ℕ × (ℕ → ℕ → α)) :=
  let context_indices := (List.range C).filter (fun i => i ≠ f)
  (P * 2, fun s j => current_window P actual e s f j) ::
    (context_indices.map
        (fun c => (P * 2, fun s j => current_window P actual e s c j)) ++
     context_indices.map (fun _ => (1, fun _ _ => (1 : α))))

/-- One iteration of the prediction loop (lines 145-176) at an
`(episode, focus)` pair `p`: query the model, write
`actual[:, focus, episode - 1] + predictions / TARGET_FPS` into
`predicted_states[:, focus, episode]`, then append the per-scene Euclidean
error `np.linalg.norm(actual - predicted, axis=1)` at that slot (read back
from the just-written array). `sqrt` is the numeric library's square root,
passed as a parameter so the development stays executable over `ℚ`. -/
def predStep (sqrt : α → α) (fps : α)
    (predict : List (ℕ × (ℕ → ℕ → α)) → ℕ → ℕ → α)
    (C P E : ℕ) (actual : ℕ → ℕ → ℕ → ℕ → α)
    (st : Tensor4 α × List (ℕ → α)) (p : ℕ × ℕ) :
    Tensor4 α × List (ℕ → α) :=
  let preds := predict (features P C actual p.1 p.2)
  let predicted := writeSlot st.1 p.2 p.1
    (fun s k => actual s p.2 (pyPrev p.1 E) k + preds s k / fps)
  let mse : ℕ → α := fun s =>
    sqrt ((actual s p.2 p.1 0 - predicted.val s p.2 p.1 0) ^ 2 +
          (actual s p.2 p.1 1 - predicted.val s p.2 p.1 1) ^ 2)
  (predicted, st.2 ++ [mse])

/-- Helper for the iteration space of the prediction loop: episodes
`P, P + 1, ..., P + n - 1` paired with every focus index below `C`, in loop
order. -/
def pairsAux (P n C : ℕ) : List (ℕ × ℕ) :=
  (List.range' P n).flatMap (fun e => (List.range C).map (fun f => (e, f)))

/-- The iteration space of the prediction loop (lines 140 and 145):
`for episode in range(P, E): for focus in range(C)`. -/
def pairsList (P E C : ℕ) : List (ℕ × ℕ) := pairsAux P (E - P) C

/-- The whole prediction loop of `get_reward` (lines 140-176), folded over its
iteration space: returns the final `predicted_states` tensor and the list of
recorded per-scene error vectors. -/
def predictionPass (sqrt : α → α) (fps : α)
    (predict : List (ℕ × (ℕ → ℕ → α)) → ℕ → ℕ → α)
    (C P E : ℕ) (actual : ℕ → ℕ → ℕ → ℕ → α) (init : Tensor4 α) :
    Tensor4 α × List (ℕ → α) :=
  (pairsList P E C).foldl (predStep sqrt fps predict C P E actual) (init, [])

/-- The rollout of `get_reward` (lines 132-138): each of the `S` scenes is
stepped once per episode and every circle's 2D state is recorded, so entry
`(s, c, e)` holds the position of circle `c` of scene `s` after `e + 1`
steps past initialization. -/
def rolloutActual (step : Scene α → Scene α) (scenes : ℕ → Scene α)
    (S C E : ℕ) : Tensor4 α :=
  ⟨(S, C, E, 2), fun s c e k =>
    if s < S ∧ e < E ∧ k < 2 then
      match (step^[e + 1] (scenes s)).circles.get? c with
      | some circ =>
          if k = 0 then (get_circle_state (step^[e + 1] (scenes s)) circ).1
          else (get_circle_state (step^[e + 1] (scenes s)) circ).2
      | none => 0
    else 0⟩

/-- Embeds `np.mean(np.array(errors), axis=0)` (line 178) applied to the list
of per-scene error vectors: the result of `np.array` on a nonempty list of
length-`S` vectors has shape `(K, S)` and its mean along axis 0 has shape
`(S,)`; on the empty list `np.array` gives shape `(0,)` and the mean
degenerates to a scalar (numpy returns `nan` with shape `()`). The first
component records the numpy shape of the result. -/
def meanErrors (S : ℕ) (errors : List (ℕ → α)) : List ℕ × (ℕ → α) :=
  (if errors.length = 0 then [] else [S],
   fun s => (errors.map (fun v => v s)).sum / (errors.length : α))

/-- The value returned by `get_reward` (line 178): the mean error (with its
numpy shape), and the full `actual_states` and `predicted_states` tensors. -/
structure RewardResult (α : Type) where
  meanShape : List ℕ
  meanVal : ℕ → α
  actual_states : Tensor4 α
  predicted_states : Tensor4 α

/-- The body of `get_reward` after scene initialization succeeded
(lines 115-178): rollout, prediction loop, aggregation. -/
def reward_body (sqrt : α → α) (step : Scene α → Scene α)
    (predict : List (ℕ × (ℕ → ℕ → α)) → ℕ → ℕ → α)
    (fps : α) (S C E P : ℕ) (scenes : ℕ → Scene α) : RewardResult α :=
  let actual := rolloutActual step scenes S C E
  let pe := predictionPass sqrt fps predict C P E actual.val (zerosTensor S C E)
  ⟨(meanErrors S pe.2).1, (meanErrors S pe.2).2, actual, pe.1⟩

/-- Embeds `Environment.get_reward(configurations)` (lines 97-178) for an
environment whose `batch_size` is `S`, `episodes` is `E` and
`past_timesteps` is `P`. The scene replicas are the `ThreeCircles` built by
the constructor (lines 92-95). `none` models the two uncaught error paths:
`self.scenes[0]` with an empty batch, and a failing slice unpack during
scene initialization (configuration shorter than 6 entries, since the
source reads slices at offsets 0, 1, 2). -/
def get_reward (sqrt : α → α) (step : Scene α → Scene α)
    (predict : List (ℕ × (ℕ → ℕ → α)) → ℕ → ℕ → α)
    (fps M : α) (S E P : ℕ) (width height radius : α)
    (configurations : ℕ → List α) : Option (RewardResult α) :=
  if S = 0 then none
  else
    (seqMapOption
        (fun s => init_scene_from_configuration M step
          (ThreeCircles width height radius) (configurations s))
        (List.range S)).map
      (fun inited => reward_body sqrt step predict fps S
        (ThreeCircles (α := α) width height radius).circles.length E P
        (fun s => (inited.get? s).getD (ThreeCircles width height radius)))

/-! Helper lemmas. -/

/-- Clipping lands in the clip interval. -/
lemma clip_le (x lo hi : α) : clip x lo hi ≤ hi := min_le_right _ _

/-- Clipping lands above the lower clip bound when the interval is sane. -/
lemma le_clip (x lo hi : α) (h : lo ≤ hi) : lo ≤ clip x lo hi :=
  le_min (le_max_right _ _) h

/-- Clipping is the identity on the clip interval. -/
lemma clip_eq_self (x lo hi : α) (h0 : lo ≤ x) (h1 : x ≤ hi) :
    clip x lo hi = x := by
  rw [clip, max_eq_left h0, min_eq_left h1]

/-- The context index list `[i for i in range(N) if i != 0]` has `N - 1`
elements. -/
lemma length_filter_ne_zero (N : ℕ) :
    ((List.range N).filter (fun i => i ≠ 0)).length = N - 1 := by
  induction N with
  | zero => rfl
  | succ n ih =>
    rw [List.range_succ, List.filter_append, List.length_append, ih]
    cases n with
    | zero => simp
    | succ m =>
      have h : List.filter (fun i => i ≠ 0) [m + 1] = [m + 1] := by simp
      rw [h]
      simp

/-! Claim theorems for the coordinate mapper. -/

/-- C4: for all inputs `x` and `y` and all parameters with
`radius ≤ width / 2` and `radius ≤ height / 2`, the pair returned by
`configuration_to_position` lies within the box
`[radius, width - radius] × [radius, height - radius]`. -/
theorem configuration_to_position_in_bounds (x y width height radius : α)
    (hw : radius ≤ width / 2) (hh : radius ≤ height / 2) :
    radius ≤ (configuration_to_position x y width height radius).1 ∧
    (configuration_to_position x y width height radius).1 ≤ width - radius ∧
    radius ≤ (configuration_to_position x y width height radius).2 ∧
    (configuration_to_position x y width height radius).2 ≤ height - radius := by
  have hw2 : radius ≤ width - radius := by linarith
  have hh2 : radius ≤ height - radius := by linarith
  simp only [configuration_to_position]
  exact ⟨le_min (le_max_right _ _) hw2, min_le_right _ _,
    le_min (le_max_right _ _) hh2, min_le_right _ _⟩

/-- Witness for C4 at a concrete input. -/
theorem configuration_to_position_in_bounds_witness :
    (30 : ℚ) ≤ (configuration_to_position 37 (-2) 256 256 30).1 ∧
    (configuration_to_position (37 : ℚ) (-2) 256 256 30).1 ≤ 256 - 30 ∧
    (30 : ℚ) ≤ (configuration_to_position 37 (-2) 256 256 30).2 ∧
    (configuration_to_position (37 : ℚ) (-2) 256 256 30).2 ≤ 256 - 30 :=
  configuration_to_position_in_bounds 37 (-2) 256 256 30 (by norm_num)
    (by norm_num)

/-- C5: each component of `configuration_to_velocity` lies within
`[-MAX_VELOCITY, MAX_VELOCITY]`; as a function of the clamped input
`v ∈ [0, 1]` it is the linear map `(v * 2 - 1) * MAX_VELOCITY`; and it maps
`0`, `1/2` and `1` to `-MAX_VELOCITY`, `0` and `MAX_VELOCITY`. -/
theorem configuration_to_velocity_props (M vx vy : α) (hM : 0 ≤ M) :
    (-M ≤ (configuration_to_velocity M vx vy).1 ∧
      (configuration_to_velocity M vx vy).1 ≤ M ∧
      -M ≤ (configuration_to_velocity M vx vy).2 ∧
      (configuration_to_velocity M vx vy).2 ≤ M) ∧
    (∀ v w : α, 0 ≤ v → v ≤ 1 →
      (configuration_to_velocity M v w).1 = (v * 2 - 1) * M) ∧
    (configuration_to_velocity M 0 0).1 = -M ∧
    (configuration_to_velocity M (1 / 2) 0).1 = 0 ∧
    (configuration_to_velocity M 1 0).1 = M := by
  have h01 : (0 : α) ≤ 1 := zero_le_one
  have bound : ∀ v : α, -M ≤ (clip v 0 1 * 2 - 1) * M ∧
      (clip v 0 1 * 2 - 1) * M ≤ M := by
    intro v
    have hlo := le_clip v 0 1 h01
    have hhi := clip_le v 0 1
    constructor
    · have h1 : (-1 : α) ≤ clip v 0 1 * 2 - 1 := by linarith
      have := mul_le_mul_of_nonneg_right h1 hM
      rwa [neg_one_mul] at this
    · have h1 : clip v 0 1 * 2 - 1 ≤ 1 := by linarith
      have := mul_le_mul_of_nonneg_right h1 hM
      rwa [one_mul] at this
  have hlin : ∀ v w : α, 0 ≤ v → v ≤ 1 →
      (configuration_to_velocity M v w).1 = (v * 2 - 1) * M := by
    intro v w h0 h1
    simp only [configuration_to_velocity]
    rw [clip_eq_self v 0 1 h0 h1]
  refine ⟨⟨(bound vx).1, (bound vx).2, (bound vy).1, (bound vy).2⟩, hlin, ?_, ?_, ?_⟩
  · rw [hlin 0 0 le_rfl h01]
    ring
  · rw [hlin (1 / 2) 0 (by norm_num) (by norm_num)]
    ring
  · rw [hlin 1 0 h01 le_rfl]
    ring

/-- Witness for C5 at a concrete input. -/
theorem configuration_to_velocity_props_witness :
    ((-7 : ℚ) ≤ (configuration_to_velocity 7 9 (-3)).1 ∧
      (configuration_to_velocity (7 : ℚ) 9 (-3)).1 ≤ 7 ∧
      (-7 : ℚ) ≤ (configuration_to_velocity 7 9 (-3)).2 ∧
      (configuration_to_velocity (7 : ℚ) 9 (-3)).2 ≤ 7) ∧
    (∀ v w : ℚ, 0 ≤ v → v ≤ 1 →
      (configuration_to_velocity 7 v w).1 = (v * 2 - 1) * 7) ∧
    (configuration_to_velocity (7 : ℚ) 0 0).1 = -7 ∧
    (configuration_to_velocity (7 : ℚ) (1 / 2) 0).1 = 0 ∧
    (configuration_to_velocity (7 : ℚ) 1 0).1 = 7 :=
  configuration_to_velocity_props 7 9 (-3) (by norm_num)

/-! Claim theorem for the scene initializer's slice offsets. -/

/-- C1 (code bug evaluation): on the configuration
`[0,0,0,0, 1,1,1,1, 1,1,1,1]` for a `ThreeCircles` scene of width and height
256 and radius 30, the assignment loop of
`initialize_scene_from_configuration` gives every body the position mapped
from `(0, 0)` (clamped to `(30, 30)`), because body `i` reads the slice at
offset `i` rather than `4 * i`; the documented encoding
(`[x1, y1, vx1, vy1, ...]`) instead puts body 1 at the coordinates mapped
from `(1, 1)`, i.e. `(226, 226)`. -/
theorem assign_offset_bug :
    ((assignScene (1 : ℚ) (ThreeCircles 256 256 30)
        [0, 0, 0, 0, 1, 1, 1, 1, 1, 1, 1, 1]).map
      (fun sc => sc.circles.map Circle.position)) =
      some [configuration_to_position 0 0 256 256 30,
        configuration_to_position 0 0 256 256 30,
        configuration_to_position 0 0 256 256 30] ∧
    configuration_to_position (0 : ℚ) 0 256 256 30 = (30, 30) ∧
    configuration_to_position (1 : ℚ) 1 256 256 30 = (226, 226) ∧
    ((30, 30) : ℚ × ℚ) ≠ (226, 226) := by
  refine ⟨rfl, ?_, ?_, by norm_num⟩
  · norm_num [configuration_to_position, clip, min_def, max_def]
  · norm_num [configuration_to_position, clip, min_def, max_def]

/-! Claim theorems for the batch builder `make_training`. -/

/-- C2 (counterexample): on an input of numpy shape `(S, N, 2, 4)` — here
`(1, 1, 2, 4)` — `make_training` does not return a training pair at all: the
reshape of `actual_states[:, :, :2, :]` (8 entries per scene and body) to
`(S, N, 4)` raises, so the embedded function yields `none` rather than the
pair claimed. -/
theorem make_training_shape_counterexample :
    make_training (60 : ℚ) 1 2 4 (fun _ _ _ _ => 0) = none := rfl

/-- C2 (amended): on an input of numpy shape `(S, N, E, 2)` with at least one
body and `E ≥ 3` episodes, `make_training` returns a pair whose targets
component is `(state at episode 2 - state at episode 1) * TARGET_FPS` for
the single focus body 0, with 2 columns (one per coordinate axis). -/
theorem make_training_targets (fps : α) (N E : ℕ) (a : ℕ → ℕ → ℕ → ℕ → α)
    (hN : 1 ≤ N) (hE : 2 < E) :
    (make_training fps N E 2 a).map Prod.snd =
      some (2, fun s j => (a s 0 2 j - a s 0 1 j) * fps) := by
  have g1 : min E 2 * 2 = 4 := by omega
  simp only [make_training]
  rw [if_pos g1, if_pos (show 0 < N from hN), if_pos hE]
  rfl

/-- Witness for the amended C2 at a concrete input. -/
theorem make_training_targets_witness :
    (make_training (60 : ℚ) 2 3 2 (fun _ _ _ _ => 5)).map Prod.snd =
      some (2, fun s j =>
        ((fun _ _ _ _ => (5 : ℚ)) s 0 2 j - (fun _ _ _ _ => (5 : ℚ)) s 0 1 j) * 60) :=
  make_training_targets 60 2 3 (fun _ _ _ _ => 5) (by norm_num) (by norm_num)

/-- C6: for a well-shaped input with `N ≥ 1` bodies (shape `(S, N, E, 2)`,
`E ≥ 3`), the feature batch returned by `make_training` is built only for
focus body 0: it is `[focus-state] ++ [context-states for the N - 1 other
bodies, in order] ++ [one all-ones mask per context body]`, and has length
`1 + 2 * (N - 1)`. -/
theorem make_training_feature_batch (fps : α) (N E : ℕ)
    (a : ℕ → ℕ → ℕ → ℕ → α) (hN : 1 ≤ N) (hE : 2 < E) :
    (make_training fps N E 2 a).map Prod.fst =
      some ((4, fun s j => a s 0 (j / 2) (j % 2)) ::
        ((((List.range N).filter (fun i => i ≠ 0)).map
            (fun c => (4, fun s j => a s c (j / 2) (j % 2)))) ++
         (((List.range N).filter (fun i => i ≠ 0)).map
            (fun _ => (1, fun _ _ => (1 : α)))))) ∧
    (∀ l t, make_training fps N E 2 a = some (l, t) →
      l.length = 1 + 2 * (N - 1)) := by
  have g1 : min E 2 * 2 = 4 := by omega
  have hfst : (make_training fps N E 2 a).map Prod.fst =
      some ((4, fun s j => a s 0 (j / 2) (j % 2)) ::
        ((((List.range N).filter (fun i => i ≠ 0)).map
            (fun c => (4, fun s j => a s c (j / 2) (j % 2)))) ++
         (((List.range N).filter (fun i => i ≠ 0)).map
            (fun _ => (1, fun _ _ => (1 : α)))))) := by
    simp only [make_training]
    rw [if_pos g1, if_pos (show 0 < N from hN), if_pos hE]
    rfl
  refine ⟨hfst, ?_⟩
  intro l t h
  have hl : some l = (make_training fps N E 2 a).map Prod.fst := by
    rw [h]
    rfl
  rw [hfst] at hl
  have hl2 := Option.some.inj hl
  rw [hl2]
  simp only [List.length_cons, List.length_append, List.length_map,
    length_filter_ne_zero]
  omega

/-- Witness for C6 at a concrete input. -/
theorem make_training_feature_batch_witness :
    (make_training (60 : ℚ) 2 3 2 (fun _ _ _ _ => 5)).map Prod.fst =
      some ((4, fun s j => (fun _ _ _ _ => (5 : ℚ)) s 0 (j / 2) (j % 2)) ::
        ((((List.range 2).filter (fun i => i ≠ 0)).map
            (fun c => (4, fun s j => (fun _ _ _ _ => (5 : ℚ)) s c (j / 2) (j % 2)))) ++
         (((List.range 2).filter (fun i => i ≠ 0)).map
            (fun _ => (1, fun _ _ => (1 : ℚ)))))) ∧
    (∀ l t, make_training (60 : ℚ) 2 3 2 (fun _ _ _ _ => 5) = some (l, t) →
      l.length = 1 + 2 * (2 - 1)) :=
  make_training_feature_batch 60 2 3 (fun _ _ _ _ => 5) (by norm_num)
    (by norm_num)

/-! Facts about the prediction loop fold. -/

/-- Each loop iteration appends exactly one error vector. -/
lemma foldl_predStep_errors_length (sqrt : α → α) (fps : α)
    (predict : List (ℕ × (ℕ → ℕ → α)) → ℕ → ℕ → α)
    (C P E : ℕ) (actual : ℕ → ℕ → ℕ → ℕ → α) :
    ∀ (L : List (ℕ × ℕ)) (st : Tensor4 α × List (ℕ → α)),
      ((L.foldl (predStep sqrt fps predict C P E actual) st).2).length =
        st.2.length + L.length := by
  intro L
  induction L with
  | nil => intro st; simp
  | cons p L2 ih =>
    intro st
    rw [List.foldl_cons, ih]
    simp [predStep]
    omega

/-- The loop never changes the shape of the predicted tensor. -/
lemma foldl_predStep_shape (sqrt : α → α) (fps : α)
    (predict : List (ℕ × (ℕ → ℕ → α)) → ℕ → ℕ → α)
    (C P E : ℕ) (actual : ℕ → ℕ → ℕ → ℕ → α) :
    ∀ (L : List (ℕ × ℕ)) (st : Tensor4 α × List (ℕ → α)),
      ((L.foldl (predStep sqrt fps predict C P E actual) st).1).shape =
        st.1.shape := by
  intro L
  induction L with
  | nil => intro st; rfl
  | cons p L2 ih =>
    intro st
    rw [List.foldl_cons, ih]
    rfl

/-- Slots whose `(episode, focus)` pair is visited by no iteration keep their
incoming value. -/
lemma foldl_predStep_val_not_mem (sqrt : α → α) (fps : α)
    (predict : List (ℕ × (ℕ → ℕ → α)) → ℕ → ℕ → α)
    (C P E : ℕ) (actual : ℕ → ℕ → ℕ → ℕ → α) (s c0 e0 k : ℕ) :
    ∀ (L : List (ℕ × ℕ)) (st : Tensor4 α × List (ℕ → α)),
      (∀ p ∈ L, ¬(c0 = p.2 ∧ e0 = p.1)) →
      ((L.foldl (predStep sqrt fps predict C P E actual) st).1).val s c0 e0 k =
        st.1.val s c0 e0 k := by
  intro L
  induction L with
  | nil => intro st _; rfl
  | cons p L2 ih =>
    intro st h
    rw [List.foldl_cons, ih _ (fun q hq => h q (List.mem_cons_of_mem p hq))]
    have hp := h p (List.mem_cons_self p L2)
    simp [predStep, writeSlot, hp]

/-- A slot visited by some iteration ends up holding
`actual[:, focus, episode - 1] + predictions / TARGET_FPS`: the written
value does not depend on the accumulated predicted tensor, so the last
write (indeed, any write) pins the final value. -/
lemma foldl_predStep_val_mem (sqrt : α → α) (fps : α)
    (predict : List (ℕ × (ℕ → ℕ → α)) → ℕ → ℕ → α)
    (C P E : ℕ) (actual : ℕ → ℕ → ℕ → ℕ → α) (s e f k : ℕ) :
    ∀ (L : List (ℕ × ℕ)) (st : Tensor4 α × List (ℕ → α)), (e, f) ∈ L →
      ((L.foldl (predStep sqrt fps predict C P E actual) st).1).val s f e k =
        actual s f (pyPrev e E) k +
          predict (features P C actual e f) s k / fps := by
  intro L
  induction L with
  | nil => intro st h; exact absurd h (List.not_mem_nil _)
  | cons p L2 ih =>
    intro st h
    by_cases hm : (e, f) ∈ L2
    · rw [List.foldl_cons]
      exact ih _ hm
    · have hp : p = (e, f) := by
        rcases List.mem_cons.mp h with h1 | h2
        · exact h1.symm
        · exact absurd h2 hm
      subst hp
      rw [List.foldl_cons]
      have hnot : ∀ q ∈ L2, ¬(f = q.2 ∧ e = q.1) := by
        rintro ⟨qa, qb⟩ hq ⟨h1, h2⟩
        exact hm (by rw [h2, h1]; exact hq)
      rw [foldl_predStep_val_not_mem sqrt fps predict C P E actual s f e k L2 _
        hnot]
      simp [predStep, writeSlot]

/-- Membership in the loop's iteration space helper. -/
lemma mem_pairsAux (P n C : ℕ) (p : ℕ × ℕ) :
    p ∈ pairsAux P n C ↔ P ≤ p.1 ∧ p.1 < P + n ∧ p.2 < C := by
  cases p with
  | mk e f =>
    simp only [pairsAux, List.mem_flatMap, List.mem_map, List.mem_range'_1,
      List.mem_range, Prod.mk.injEq]
    constructor
    · rintro ⟨a, ⟨ha1, ha2⟩, b, hb, he, hf⟩
      subst he
      subst hf
      exact ⟨ha1, ha2, hb⟩
    · rintro ⟨h1, h2, h3⟩
      exact ⟨e, ⟨h1, h2⟩, f, h3, rfl, rfl⟩

/-- Membership in the loop's iteration space: episodes in `[P, E)`, focus
indices below `C`. -/
lemma mem_pairsList (P E C : ℕ) (p : ℕ × ℕ) :
    p ∈ pairsList P E C ↔ P ≤ p.1 ∧ p.1 < E ∧ p.2 < C := by
  rw [pairsList, mem_pairsAux]
  omega

/-- Length of the iteration space helper. -/
lemma pairsAux_length (n C : ℕ) : ∀ P, (pairsAux P n C).length = n * C := by
  induction n with
  | zero => intro P; simp [pairsAux]
  | succ m ih =>
    intro P
    rw [pairsAux, List.range'_succ, List.flatMap_cons, List.length_append,
      List.length_map, List.length_range]
    have h2 := ih (P + 1)
    rw [pairsAux] at h2
    rw [h2, Nat.succ_mul]
    omega

/-- The prediction loop runs `(E - P) * C` iterations. -/
lemma pairsList_length (P E C : ℕ) : (pairsList P E C).length = (E - P) * C := by
  rw [pairsList, pairsAux_length]

/-- Entries of the predicted tensor at episodes before `P` keep their initial
value. -/
lemma predictionPass_val_low_episode (sqrt : α → α) (fps : α)
    (predict : List (ℕ × (ℕ → ℕ → α)) → ℕ → ℕ → α)
    (C P E : ℕ) (actual : ℕ → ℕ → ℕ → ℕ → α) (init : Tensor4 α)
    (s c e k : ℕ) (he : e < P) :
    ((predictionPass sqrt fps predict C P E actual init).1).val s c e k =
      init.val s c e k := by
  unfold predictionPass
  refine foldl_predStep_val_not_mem sqrt fps predict C P E actual s c e k _ _ ?_
  intro p hp hco
  obtain ⟨h1, h2⟩ := hco
  have hm := (mem_pairsList P E C p).mp hp
  omega

/-! Claim theorems for the prediction loop. -/

/-- C3: for every episode `e` in `[past_timesteps, episodes - 1]` and focus
body `f`, the prediction loop stores exactly
`actual_states[s, f, e - 1] + model_output / TARGET_FPS` into
`predicted_states[s, f, e]`, with no additional transformation: the model
output is `predict` applied to the feature window built at `(e, f)`, and the
episode index read back is the Python index `e - 1` (which for `e ≥ 1` is
the preceding episode). -/
theorem predicted_states_roundtrip (sqrt : α → α) (fps : α)
    (predict : List (ℕ × (ℕ → ℕ → α)) → ℕ → ℕ → α)
    (C P E : ℕ) (actual : ℕ → ℕ → ℕ → ℕ → α) (init : Tensor4 α)
    (e f s k : ℕ) (hP : P ≤ e) (hE : e < E) (hf : f < C) :
    ((predictionPass sqrt fps predict C P E actual init).1).val s f e k =
      actual s f (pyPrev e E) k +
        predict (features P C actual e f) s k / fps ∧
    (1 ≤ e → pyPrev e E = e - 1) := by
  constructor
  · unfold predictionPass
    exact foldl_predStep_val_mem sqrt fps predict C P E actual s e f k
      (pairsList P E C) (init, [])
      ((mem_pairsList P E C (e, f)).mpr ⟨hP, hE, hf⟩)
  · intro h1
    rw [pyPrev, if_neg (by omega)]

/-- Witness for C3 at a concrete input. -/
theorem predicted_states_roundtrip_witness :
    ((predictionPass (fun x => x) (1 : ℚ) (fun _ _ _ => 2) 3 2 3
        (fun _ _ _ _ => 5) (zerosTensor 1 3 3)).1).val 0 1 2 0 =
      5 + 2 / 1 ∧
    (1 ≤ 2 → pyPrev 2 3 = 2 - 1) :=
  predicted_states_roundtrip (fun x => x) 1 (fun _ _ _ => 2) 3 2 3
    (fun _ _ _ _ => 5) (zerosTensor 1 3 3) 2 1 0 0 (by norm_num) (by norm_num)
    (by norm_num)

/-- C8: with `episodes = 3`, `past_timesteps = 2` and `body_count = 3`, the
prediction loop iterates exactly over episode index 2 (once per focus body,
in order), and exactly `body_count = 3` error vectors are recorded. -/
theorem prediction_loop_scenario (sqrt : α → α) (fps : α)
    (predict : List (ℕ × (ℕ → ℕ → α)) → ℕ → ℕ → α)
    (actual : ℕ → ℕ → ℕ → ℕ → α) (init : Tensor4 α) :
    pairsList 2 3 3 = [(2, 0), (2, 1), (2, 2)] ∧
    ((predictionPass sqrt fps predict 3 2 3 actual init).2).length = 3 := by
  constructor
  · rfl
  · unfold predictionPass
    rw [foldl_predStep_errors_length]
    rfl

/-! Facts about scene initialization. -/

/-- Sequential map preserves length on success. -/
lemma seqMapOption_length {β γ : Type} (f : β → Option γ) :
    ∀ (l : List β) (l2 : List γ), seqMapOption f l = some l2 →
      l2.length = l.length := by
  intro l
  induction l with
  | nil =>
    intro l2 h
    rw [← Option.some.inj h]
    rfl
  | cons b l1 ih =>
    intro l2 h
    simp only [seqMapOption] at h
    cases hfb : f b with
    | none =>
      rw [hfb] at h
      exact Option.noConfusion h
    | some c =>
      cases hrest : seqMapOption f l1 with
      | none =>
        rw [hfb, hrest] at h
        exact Option.noConfusion h
      | some l3 =>
        rw [hfb, hrest] at h
        have h2 : c :: l3 = l2 := Option.some.inj h
        rw [← h2]
        simp [ih l3 hrest]

/-- Sequential map succeeds when every element succeeds. -/
lemma seqMapOption_isSome {β γ : Type} (f : β → Option γ) :
    ∀ l : List β, (∀ b ∈ l, ∃ c, f b = some c) →
      ∃ l2, seqMapOption f l = some l2 := by
  intro l
  induction l with
  | nil => intro _; exact ⟨[], rfl⟩
  | cons b l1 ih =>
    intro h
    obtain ⟨c, hc⟩ := h b (List.mem_cons_self b l1)
    obtain ⟨l3, hl3⟩ := ih (fun q hq => h q (List.mem_cons_of_mem b hq))
    refine ⟨c :: l3, ?_⟩
    simp only [seqMapOption]
    rw [hc, hl3]

/-- A successful assignment pass keeps the scene dimensions and the body
count; only the circles' states are replaced. -/
lemma assignScene_some_props (M : α) (scene s1 : Scene α) (cfg : List α)
    (h : assignScene M scene cfg = some s1) :
    s1.width = scene.width ∧ s1.height = scene.height ∧
    s1.radius = scene.radius ∧ s1.circles.length = scene.circles.length := by
  unfold assignScene at h
  cases hseq : seqMapOption
      (assignCircle M scene.width scene.height scene.radius cfg)
      (List.range scene.circles.length) with
  | none =>
    rw [hseq] at h
    exact Option.noConfusion h
  | some cs =>
    rw [hseq] at h
    have h2 : (⟨scene.width, scene.height, scene.radius, cs⟩ : Scene α) = s1 :=
      Option.some.inj h
    rw [← h2]
    refine ⟨rfl, rfl, rfl, ?_⟩
    have h3 := seqMapOption_length _ _ _ hseq
    simpa using h3

/-- The assignment pass reads nothing of the scene but its dimensions and its
body count, so scenes agreeing on those get identical assignments. -/
lemma assignScene_congr (M : α) (s t : Scene α) (cfg : List α)
    (hw : s.width = t.width) (hh : s.height = t.height)
    (hr : s.radius = t.radius) (hc : s.circles.length = t.circles.length) :
    assignScene M s cfg = assignScene M t cfg := by
  unfold assignScene
  rw [hw, hh, hr, hc]

/-- Slice reads succeed on long enough configurations. -/
lemma assignCircle_isSome (M width height radius : α) (cfg : List α) (i : ℕ)
    (h : i + 4 ≤ cfg.length) :
    ∃ c, assignCircle M width height radius cfg i = some c := by
  unfold assignCircle readSlice4
  rw [if_pos h]
  exact ⟨_, rfl⟩

/-- Initializing a `ThreeCircles` scene succeeds whenever the configuration
has at least 6 entries (the source reads slices at offsets 0, 1, 2). -/
lemma init_scene_threeCircles_isSome (M : α) (step : Scene α → Scene α)
    (width height radius : α) (cfg : List α) (h : 6 ≤ cfg.length) :
    ∃ sc, init_scene_from_configuration M step
      (ThreeCircles width height radius) cfg = some sc := by
  obtain ⟨cs, hcs⟩ := seqMapOption_isSome
    (assignCircle M (ThreeCircles (α := α) width height radius).width
      (ThreeCircles (α := α) width height radius).height
      (ThreeCircles (α := α) width height radius).radius cfg)
    (List.range (ThreeCircles (α := α) width height radius).circles.length)
    (by
      intro b hb
      have h3 : (ThreeCircles (α := α) width height radius).circles.length = 3 :=
        rfl
      have hb2 := List.mem_range.mp hb
      rw [h3] at hb2
      exact assignCircle_isSome _ _ _ _ cfg b (by omega))
  refine ⟨step ⟨(ThreeCircles (α := α) width height radius).width,
    (ThreeCircles (α := α) width height radius).height,
    (ThreeCircles (α := α) width height radius).radius, cs⟩, ?_⟩
  unfold init_scene_from_configuration assignScene
  rw [hcs]
  rfl

/-- Under the preconditions of a sane call, `get_reward` succeeds and returns
the driver body applied to the initialized scene replicas. -/
lemma get_reward_eq_some (sqrt : α → α) (step : Scene α → Scene α)
    (predict : List (ℕ × (ℕ → ℕ → α)) → ℕ → ℕ → α)
    (fps M : α) (S E P : ℕ) (width height radius : α)
    (configurations : ℕ → List α)
    (hS : 1 ≤ S) (hcfg : ∀ s, s < S → 6 ≤ (configurations s).length) :
    ∃ inited : List (Scene α),
      get_reward sqrt step predict fps M S E P width height radius
        configurations =
      some (reward_body sqrt step predict fps S 3 E P
        (fun s => (inited.get? s).getD (ThreeCircles width height radius))) := by
  obtain ⟨l2, hl2⟩ := seqMapOption_isSome
    (fun s => init_scene_from_configuration M step
      (ThreeCircles width height radius) (configurations s))
    (List.range S)
    (by
      intro b hb
      exact init_scene_threeCircles_isSome M step width height radius
        (configurations b) (hcfg b (List.mem_range.mp hb)))
  refine ⟨l2, ?_⟩
  unfold get_reward
  rw [if_neg (by omega : ¬S = 0), hl2]
  rfl

/-! Claim theorems about `get_reward` as a whole and the scene initializer. -/

/-- C10: in the `predicted_states` tensor returned by `get_reward`, every
entry at an episode index strictly below `past_timesteps` is zero for every
scene and body: the prediction loop writes only episode indices in
`[past_timesteps, episodes - 1]`, and the earlier slots keep the zero value
they were created with. -/
theorem predicted_states_frame (sqrt : α → α) (step : Scene α → Scene α)
    (predict : List (ℕ × (ℕ → ℕ → α)) → ℕ → ℕ → α)
    (fps M : α) (S E P : ℕ) (width height radius : α)
    (configurations : ℕ → List α)
    (hS : 1 ≤ S) (hcfg : ∀ s, s < S → 6 ≤ (configurations s).length) :
    ∃ res,
      get_reward sqrt step predict fps M S E P width height radius
        configurations = some res ∧
      ∀ s c e k, e < P → res.predicted_states.val s c e k = 0 := by
  obtain ⟨inited, hres⟩ := get_reward_eq_some sqrt step predict fps M S E P
    width height radius configurations hS hcfg
  refine ⟨_, hres, ?_⟩
  intro s c e k he
  simp only [reward_body]
  exact predictionPass_val_low_episode sqrt fps predict 3 P E _ _ s c e k he

/-- Witness for C10 at a concrete input. -/
theorem predicted_states_frame_witness :
    ∃ res,
      get_reward (fun x => x) (fun sc => sc) (fun _ _ _ => 0) (1 : ℚ) 1 1 3 2
        256 256 30 (fun _ => List.replicate 12 0) = some res ∧
      ∀ s c e k, e < 2 → res.predicted_states.val s c e k = 0 :=
  predicted_states_frame (fun x => x) (fun sc => sc) (fun _ _ _ => 0) 1 1 1 3 2
    256 256 30 (fun _ => List.replicate 12 0) (by norm_num) (fun s hs => by simp)

/-- C7 (counterexample): the shape claim fails for a call made on an
environment with `episodes = past_timesteps` (here both 2, with batch size
1): the prediction loop runs zero iterations, the error list stays empty,
and `np.mean(np.array([]), axis=0)` degenerates to a scalar — the returned
mean has numpy shape `()` (embedded as `[]`), not `(batch_size,) = (1,)`. -/
theorem get_reward_mean_shape_counterexample :
    (Option.map (fun res => res.meanShape)
      (get_reward (fun x => x) (fun sc => sc) (fun _ _ _ => 0) (1 : ℚ) 1 1 2 2
        256 256 30 (fun _ => List.replicate 12 0))) = some [] ∧
    ([] : List ℕ) ≠ [1] := ⟨rfl, by simp⟩

/-- C7 (amended): provided the batch is nonempty, every configuration row is
long enough to initialize its scene, and `past_timesteps < episodes` (so at
least one error vector is recorded), `get_reward` returns `actual_states`
and `predicted_states` of shape `(batch_size, body_count = 3, episodes, 2)`
and a mean-error array of numpy shape `(batch_size,)` that is the
elementwise mean (across the scene axis) of the
`(episodes - past_timesteps) * 3` recorded error vectors. -/
theorem get_reward_shapes (sqrt : α → α) (step : Scene α → Scene α)
    (predict : List (ℕ × (ℕ → ℕ → α)) → ℕ → ℕ → α)
    (fps M : α) (S E P : ℕ) (width height radius : α)
    (configurations : ℕ → List α)
    (hS : 1 ≤ S) (hPE : P < E)
    (hcfg : ∀ s, s < S → 6 ≤ (configurations s).length) :
    ∃ res : RewardResult α,
      get_reward sqrt step predict fps M S E P width height radius
        configurations = some res ∧
      res.actual_states.shape = (S, 3, E, 2) ∧
      res.predicted_states.shape = (S, 3, E, 2) ∧
      res.meanShape = [S] ∧
      (predictionPass sqrt fps predict 3 P E res.actual_states.val
          (zerosTensor S 3 E)).2.length = (E - P) * 3 ∧
      res.meanVal = fun s =>
        (((predictionPass sqrt fps predict 3 P E res.actual_states.val
            (zerosTensor S 3 E)).2.map (fun v => v s)).sum /
          (((E - P) * 3 : ℕ) : α)) := by
  obtain ⟨inited, hres⟩ := get_reward_eq_some sqrt step predict fps M S E P
    width height radius configurations hS hcfg
  have hlen : ∀ (actual : ℕ → ℕ → ℕ → ℕ → α) (init : Tensor4 α),
      (predictionPass sqrt fps predict 3 P E actual init).2.length =
        (E - P) * 3 := by
    intro actual init
    unfold predictionPass
    rw [foldl_predStep_errors_length]
    simp [pairsList_length]
  refine ⟨_, hres, rfl, ?_, ?_, hlen _ _, ?_⟩
  · simp only [reward_body]
    unfold predictionPass
    rw [foldl_predStep_shape]
    rfl
  · simp only [reward_body, meanErrors]
    rw [hlen]
    rw [if_neg (by omega : ¬(E - P) * 3 = 0)]
  · funext s
    simp only [reward_body, meanErrors]
    rw [hlen]

/-- Witness for the amended C7 at a concrete input. -/
theorem get_reward_shapes_witness :
    ∃ res : RewardResult ℚ,
      get_reward (fun x => x) (fun sc => sc) (fun _ _ _ => 0) (1 : ℚ) 1 1 3 2
        256 256 30 (fun _ => List.replicate 12 0) = some res ∧
      res.actual_states.shape = (1, 3, 3, 2) ∧
      res.predicted_states.shape = (1, 3, 3, 2) ∧
      res.meanShape = [1] ∧
      (predictionPass (fun x => x) (1 : ℚ) (fun _ _ _ => 0) 3 2 3
          res.actual_states.val (zerosTensor 1 3 3)).2.length = (3 - 2) * 3 ∧
      res.meanVal = fun s =>
        (((predictionPass (fun x => x) (1 : ℚ) (fun _ _ _ => 0) 3 2 3
            res.actual_states.val (zerosTensor 1 3 3)).2.map
              (fun v => v s)).sum /
          (((3 - 2) * 3 : ℕ) : ℚ)) :=
  get_reward_shapes (fun x => x) (fun sc => sc) (fun _ _ _ => 0) 1 1 1 3 2
    256 256 30 (fun _ => List.replicate 12 0) (by norm_num) (by norm_num)
    (fun s hs => by simp)

/-- C9: `initialize_scene_from_configuration` advances the scene by exactly
one simulation step after assigning all bodies, and is idempotent up to that
step: as long as the external physics step preserves the scene dimensions
and the body count, reinitializing the already-initialized scene with the
same configuration reproduces exactly the same pre-step body states as the
first call (the assignment depends only on the configuration, the scene
dimensions and the body count). -/
theorem init_scene_idempotent (M : α) (step : Scene α → Scene α)
    (hW : ∀ sc, (step sc).width = sc.width)
    (hH : ∀ sc, (step sc).height = sc.height)
    (hR : ∀ sc, (step sc).radius = sc.radius)
    (hC : ∀ sc, (step sc).circles.length = sc.circles.length)
    (scene : Scene α) (cfg : List α) (scene2 : Scene α)
    (h : init_scene_from_configuration M step scene cfg = some scene2) :
    assignScene M scene2 cfg = assignScene M scene cfg ∧
    init_scene_from_configuration M step scene cfg =
      Option.map step (assignScene M scene cfg) := by
  refine ⟨?_, rfl⟩
  unfold init_scene_from_configuration at h
  cases hassign : assignScene M scene cfg with
  | none =>
    rw [hassign] at h
    exact Option.noConfusion h
  | some s1 =>
    rw [hassign] at h
    have h2 : step s1 = scene2 := Option.some.inj h
    obtain ⟨p1, p2, p3, p4⟩ := assignScene_some_props M scene s1 cfg hassign
    refine (assignScene_congr M scene2 scene cfg ?_ ?_ ?_ ?_).trans hassign
    · rw [← h2, hW, p1]
    · rw [← h2, hH, p2]
    · rw [← h2, hR, p3]
    · rw [← h2, hC, p4]

/-- Witness for C9 at a concrete input (with the identity map standing in for
the external physics step, which trivially preserves dimensions and body
count). -/
theorem init_scene_idempotent_witness :
    assignScene (5 : ℚ)
        (Scene.mk 256 256 30 (List.replicate 3
          (Circle.mk (configuration_to_position 0 0 256 256 30)
            (configuration_to_velocity 5 0 0))))
        (List.replicate 12 0) =
      assignScene 5 (ThreeCircles 256 256 30) (List.replicate 12 0) ∧
    init_scene_from_configuration (5 : ℚ) (fun sc => sc)
        (ThreeCircles 256 256 30) (List.replicate 12 0) =
      Option.map (fun sc => sc)
        (assignScene 5 (ThreeCircles 256 256 30) (List.replicate 12 0)) :=
  init_scene_idempotent 5 (fun sc => sc) (fun _ => rfl) (fun _ => rfl)
    (fun _ => rfl) (fun _ => rfl) (ThreeCircles 256 256 30)
    (List.replicate 12 0)
    (Scene.mk 256 256 30 (List.replicate 3
      (Circle.mk (configuration_to_position 0 0 256 256 30)
        (configuration_to_velocity 5 0 0)))) rfl

end Playconf
